import Mathlib

/-!
Verification of the media composition / lip-sync polling service.

This file shallowly embeds the decision logic of the two server variants:
* `server.js` — DreamFace lip-sync submission (`callDreamFaceAPI`), the
  completion poller (`pollDreamFaceCompletion`), the fixed-duration audio
  replace endpoint (`POST /process`), `processAudio`, and
  `updateSupabaseRecord`;
* the video+music merge server — `mergeVideoWithMusic` (probe, music
  conditioning, merge invocation), its `updateSupabaseRecord`, and the
  async job boundary of `POST /api/create-video`.

JavaScript truthiness on optional strings (`a || b`, `if (!x)`) is modelled
explicitly: a field is truthy exactly when it is present and non-empty.
-/

/-- JS truthiness of an optional string value: present and non-empty.
(`undefined` is `none`; the empty string is falsy.) -/
def truthy : Option String → Bool
  | none => false
  | some s => !(s == "")

/-- JS `a || b` on optional string values. -/
def jsOr (a b : Option String) : Option String :=
  if truthy a then a else b

/-! ## External-task poller (`pollDreamFaceCompletion`, server.js lines 200-289) -/

/-- The provider's status payload as read by the poller: every field the
poller inspects, each possibly absent. -/
structure StatusPayload where
  status : Option String
  state : Option String
  resultUrl : Option String
  result_url : Option String
  videoUrl : Option String
  video_url : Option String
  outputUrl : Option String
  output_url : Option String
  error : Option String
  errorMessage : Option String
  message : Option String

/-- `status.status === 'completed' || status.status === 'success' ||
status.state === 'completed' || status.state === 'success'` (line 243). -/
def isCompleted (p : StatusPayload) : Bool :=
  p.status == some "completed" || p.status == some "success" ||
  p.state == some "completed" || p.state == some "success"

/-- `status.status === 'failed' || status.status === 'error' ||
status.state === 'failed' || status.state === 'error'` (line 261). -/
def isFailed (p : StatusPayload) : Bool :=
  p.status == some "failed" || p.status == some "error" ||
  p.state == some "failed" || p.state == some "error"

/-- `status.resultUrl || status.result_url || status.videoUrl ||
status.video_url || status.outputUrl || status.output_url` (line 248). -/
def resolveResultUrl (p : StatusPayload) : Option String :=
  jsOr p.resultUrl (jsOr p.result_url (jsOr p.videoUrl
    (jsOr p.video_url (jsOr p.outputUrl p.output_url))))

/-- `status.error || status.errorMessage || status.message || 'Unknown error'`
(line 267). -/
def failureMessage (p : StatusPayload) : String :=
  (jsOr p.error (jsOr p.errorMessage (jsOr p.message (some "Unknown error")))).getD
    "Unknown error"

/-- One polling response: either a transport-level failure (non-2xx fetch)
or a parsed JSON status payload. -/
inductive Resp where
  | transport
  | payload (p : StatusPayload)

/-- What one pass through the `try` block of the polling loop does:
return the result URL, throw (caught by the loop's own `catch`), or fall
through to the next attempt. -/
inductive StepResult where
  | done (url : String)
  | raise (msg : String)
  | next

/-- The `try` block body (lines 205-273): a non-2xx status check is
retried quietly while `attempts < 5` and thrown afterwards; a payload
returns the result URL when `isCompleted && resultUrl`, throws when
`isFailed`, and otherwise waits for the next tick. -/
def tryBody (attempts : Nat) : Resp → StepResult
  | Resp.transport =>
      if attempts < 5 then StepResult.next else StepResult.raise "Status check failed"
  | Resp.payload p =>
      if isCompleted p && truthy (resolveResultUrl p) then
        StepResult.done ((resolveResultUrl p).getD "")
      else if isFailed p then
        StepResult.raise ("DreamFace processing failed: " ++ failureMessage p)
      else
        StepResult.next

/-- `const maxAttempts = 120` (line 201). -/
def maxAttempts : Nat := 120

/-- Poller outcome: the returned result URL, or a thrown timeout error.
(The `catch` block swallows every error thrown inside the `try`, so no
other error escapes the loop.) -/
inductive PollOutcome where
  | success (url : String)
  | timeout (msg : String)

/-- Whether a poller outcome is the thrown timeout. -/
def PollOutcome.isTimeout : PollOutcome → Bool
  | PollOutcome.timeout _ => true
  | PollOutcome.success _ => false

/-- The `while (attempts < maxAttempts)` loop, with `fuel = maxAttempts -
attempts` remaining iterations. Every iteration increments `attempts` by
exactly one, so the response consumed at an iteration is indexed by the
current `attempts` value. A `raise` is caught by the loop's `catch`, which
increments `attempts`, throws the manual-check timeout once
`attempts >= maxAttempts`, and otherwise retries; exhausting the loop
condition throws the maximum-attempts timeout (line 288). -/
def pollAux (responses : Nat → Resp) : Nat → Nat → PollOutcome
  | 0, _ =>
      PollOutcome.timeout "DreamFace processing timeout - maximum attempts reached"
  | fuel + 1, attempts =>
      match tryBody attempts (responses attempts) with
      | StepResult.done url => PollOutcome.success url
      | StepResult.raise _ =>
          if maxAttempts ≤ attempts + 1 then
            PollOutcome.timeout
              "DreamFace processing timeout - please check your task manually"
          else
            pollAux responses fuel (attempts + 1)
      | StepResult.next => pollAux responses fuel (attempts + 1)

/-- `pollDreamFaceCompletion`, abstracted over the sequence of provider
responses (one per attempt). -/
def pollDreamFaceCompletion (responses : Nat → Resp) : PollOutcome :=
  pollAux responses maxAttempts 0

/-- A response is terminal when it is a payload that either completes with
a truthy result URL or reports a recognized failure status. -/
def isTerminalResp : Resp → Bool
  | Resp.transport => false
  | Resp.payload p => (isCompleted p && truthy (resolveResultUrl p)) || isFailed p

/-! ## Submission (`callDreamFaceAPI`, server.js lines 170-197) -/

/-- The `data` envelope of the provider's submission response. -/
structure SubmitData where
  taskId : Option String
  task_id : Option String
  id : Option String

/-- The parsed JSON of a successful (2xx) submission response: every field
the task-id extraction inspects. -/
structure SubmitResponse where
  taskId : Option String
  task_id : Option String
  id : Option String
  requestId : Option String
  data : Option SubmitData

/-- `result.taskId || result.task_id || result.id || result.requestId ||
(result.data && result.data.taskId) || (result.data && result.data.task_id)
|| (result.data && result.data.id)` (lines 174-180). -/
def resolveTaskId (r : SubmitResponse) : Option String :=
  jsOr r.taskId (jsOr r.task_id (jsOr r.id (jsOr r.requestId
    (jsOr (r.data.bind SubmitData.taskId)
      (jsOr (r.data.bind SubmitData.task_id)
        (r.data.bind SubmitData.id))))))

/-- The task-id extraction of `callDreamFaceAPI` on a successful, parsed
submission response: `if (!taskId) throw new Error('No task ID received
from DreamFace API')`, otherwise the extracted id is returned (and only
then does the caller proceed to polling). -/
def callDreamFaceAPI (r : SubmitResponse) : Except String String :=
  match resolveTaskId r with
  | some t =>
      if t == "" then Except.error "No task ID received from DreamFace API"
      else Except.ok t
  | none => Except.error "No task ID received from DreamFace API"

/-- The alias fields, in the order the source checks them: top-level first,
then nested under the `data` envelope. -/
def taskIdAliases (r : SubmitResponse) : List (Option String) :=
  [r.taskId, r.task_id, r.id, r.requestId,
   r.data.bind SubmitData.taskId, r.data.bind SubmitData.task_id,
   r.data.bind SubmitData.id]

/-- The first truthy (present, non-empty) value in a list of optional
strings. -/
def firstTruthy : List (Option String) → Option String
  | [] => none
  | a :: rest => if truthy a then a else firstTruthy rest

/-- A JS `||`-chain over a non-empty list, keeping the last value as the
fallback (exactly the shape of the source's alias chain). -/
def jsOrChain : List (Option String) → Option String
  | [] => none
  | [a] => a
  | a :: b :: rest => jsOr a (jsOrChain (b :: rest))

/-! ## Video+music merge pipeline (`mergeVideoWithMusic`) -/

/-- The audio filter chain applied to the music track (merge server lines
113-116): `atrim=0:videoDuration` followed by
`afade=t=out:st=max(0, videoDuration-2):d=2`. -/
structure AudioFilterChain where
  trimStart : ℚ
  trimEnd : ℚ
  fadeType : String
  fadeStart : ℚ
  fadeDur : ℚ

/-- The music-conditioning invocation: the `-stream_loop -1` input option
plus the trim/fade filter chain. -/
structure MusicConditioning where
  streamLoop : Bool
  filter : AudioFilterChain

/-- The music-processing step of `mergeVideoWithMusic` (merge server lines
110-121): `inputOptions(['-stream_loop -1'])`, then
`atrim=0:videoDuration` and `afade=t=out:st=Math.max(0, videoDuration-2):d=2`. -/
def musicConditioning (videoDuration : ℚ) : MusicConditioning :=
  { streamLoop := true,
    filter :=
      { trimStart := 0, trimEnd := videoDuration, fadeType := "out",
        fadeStart := max 0 (videoDuration - 2), fadeDur := 2 } }

/-- Duration of the input stream fed to the filters: infinite when
`-stream_loop -1` repeats the source forever, otherwise the source's own
duration. -/
def inputStreamDuration (loopForever : Bool) (sourceDur : ℚ) : WithTop ℚ :=
  if loopForever then ⊤ else (sourceDur : WithTop ℚ)

/-- Output duration of `atrim=0:t` on a stream of the given duration:
the stream is cut at `t`, or ends earlier if it is shorter. -/
def atrimOutputDuration (inDur : WithTop ℚ) (trimEnd : ℚ) : WithTop ℚ :=
  min inDur (trimEnd : WithTop ℚ)

/-! ### Probe step (merge server lines 100-106) -/

/-- One stream entry of an ffprobe result. -/
structure FfprobeStream where
  codec_type : String

/-- Container-level (`format`) metadata of an ffprobe result. -/
structure FfprobeFormat where
  duration : ℚ

/-- A probed container: format metadata plus the stream list. -/
structure FfprobeMetadata where
  format : FfprobeFormat
  streams : List FfprobeStream

/-- The probe step of `mergeVideoWithMusic`: it resolves
`metadata.format.duration` and nothing else. -/
def probeVideoDuration (m : FfprobeMetadata) : ℚ := m.format.duration

/-- Modelled from the spec: `hasAudio` computed "by enumerating the
container's streams and testing for at least one audio-typed stream".
No such computation exists in the source prober; this definition states
what the claim asserts, for comparison with `probeVideoDuration`. -/
def specHasAudio (m : FfprobeMetadata) : Bool :=
  m.streams.any (fun s => s.codec_type == "audio")

/-! ### Merge invocation (merge server lines 124-132) -/

/-- Output options of the final merge invocation:
`['-map 0:v', '-map 1:a', '-c:v copy', '-shortest']`. -/
def mergeOutputOptions : List String :=
  ["-map 0:v", "-map 1:a", "-c:v copy", "-shortest"]

/-- The merge invocation registers no filter graph: no `complexFilter`,
no `audioFilters` — the mapped streams are taken as-is. -/
def mergeFilterGraph : List String := []

/-- Whether an option list maps the given input stream specifier. -/
def mapsStream (opts : List String) (s : String) : Bool :=
  opts.contains ("-map " ++ s)

/-- Whether any filter in the list mentions the given stream specifier. -/
def filterMentions (filters : List String) (s : String) : Bool :=
  filters.any (fun f => 2 ≤ (f.splitOn s).length)

/-- Whether input 0's own audio stream can contribute to the merge output:
it would have to be mapped directly or referenced by some filter. -/
def mergeUsesExistingAudio : Bool :=
  mapsStream mergeOutputOptions "0:a" || filterMentions mergeFilterGraph "0:a"

/-- The claim that the merge step mixes the conditioned music with the
target video's existing audio, i.e. that the existing audio stream
contributes to the output at all. -/
def MergeMixesExistingAudio : Prop := mergeUsesExistingAudio = true

/-! ## Fixed-duration audio replace (`POST /process`, server.js lines 620-650) -/

/-- The single complex-filter entry
`[1:a]atrim=0:5,afade=in:st=0:d=0.5,afade=out:st=4.5:d=0.5[audio_processed]`,
in structured form. -/
structure FixedAudioReplaceFilter where
  sourceStream : String
  trimStart : ℚ
  trimEnd : ℚ
  fadeInStart : ℚ
  fadeInDuration : ℚ
  fadeOutStart : ℚ
  fadeOutDuration : ℚ
  outputLabel : String

/-- The `/process` handler's complex filter (line 625). -/
def processEndpointFilter : FixedAudioReplaceFilter :=
  { sourceStream := "1:a", trimStart := 0, trimEnd := 5,
    fadeInStart := 0, fadeInDuration := 1 / 2,
    fadeOutStart := 9 / 2, fadeOutDuration := 1 / 2,
    outputLabel := "audio_processed" }

/-- The `/process` handler's output options (lines 627-633):
`['-map 0:v', '-map [audio_processed]', '-c:v copy', '-c:a aac', '-b:a 128k']`. -/
def processEndpointOutputOptions : List String :=
  ["-map 0:v", "-map [audio_processed]", "-c:v copy", "-c:a aac", "-b:a 128k"]

/-- `processAudio` (server.js lines 339-361): mp3 codec, `.duration(5)`,
fade-in 0.5s at 0 and fade-out 0.5s at 4.5. -/
structure ProcessAudioConfig where
  codec : String
  durationSeconds : ℚ
  fadeInStart : ℚ
  fadeInDuration : ℚ
  fadeOutStart : ℚ
  fadeOutDuration : ℚ

/-- The concrete `processAudio` configuration. -/
def processAudioConfig : ProcessAudioConfig :=
  { codec := "mp3", durationSeconds := 5,
    fadeInStart := 0, fadeInDuration := 1 / 2,
    fadeOutStart := 9 / 2, fadeOutDuration := 1 / 2 }

/-! ## Job boundary and record store -/

/-- The async job body of `POST /api/create-video` on the merge server
(lines 169-184): a successful pipeline records `completed` with the public
URL; a thrown error is caught and recorded as `failed` with
`err.message`. -/
def asyncCreateVideoHandler : Except String String → List (String × String)
  | Except.ok publicUrl =>
      [("status", "completed"), ("final_merged_video", publicUrl)]
  | Except.error m => [("status", "failed"), ("error_message", m)]

/-- The `catch` block of `processVideoWithDreamFace` (server.js lines
474-481): `updateSupabaseRecord(uuid, { status: 'failed', error_message:
error.message })`. -/
def dreamFaceCatchUpdate (errMsg : String) : List (String × String) :=
  [("status", "failed"), ("error_message", errMsg)]

/-- Applying a record patch to the store: only the record with the given
uuid changes (fields prepended, so later lookups see the patch first). -/
def applyRecordUpdate (store : String → List (String × String)) (uuid : String)
    (fields : List (String × String)) : String → List (String × String) :=
  fun u => if u = uuid then fields ++ store u else store u

/-- `updateSupabaseRecord` in server.js (lines 96-116): on a non-2xx PATCH
response it logs a warning and returns `false`; otherwise it returns
`true`. It never throws on a non-2xx response. The second component is
the list of emitted warning lines. -/
def updateSupabaseRecordLipsync (responseOk : Bool) : Bool × List String :=
  if responseOk then (true, [])
  else (false, ["Failed to update Supabase record:"])

/-- `updateSupabaseRecord` in the merge server (lines 66-79): `return
response.ok` — no logging at all, never throws on a non-2xx response. -/
def updateSupabaseRecordMerge (responseOk : Bool) : Bool × List String :=
  (responseOk, [])

/-! ## Claim theorems -/

/-- C3: the music conditioning applies a fade-out of duration 2 whose start
offset is `max 0 (d - 2)` (so never negative); within the stream trimmed to
`[0, d)` the fade therefore ends exactly at `d`; for `d = 1` the fade
starts at `0`. -/
theorem fadeOut_clamps_at_zero (d : ℚ) :
    (musicConditioning d).filter.fadeType = "out" ∧
    (musicConditioning d).filter.fadeDur = 2 ∧
    (musicConditioning d).filter.fadeStart = max 0 (d - 2) ∧
    0 ≤ (musicConditioning d).filter.fadeStart ∧
    min (musicConditioning d).filter.trimEnd
      ((musicConditioning d).filter.fadeStart + (musicConditioning d).filter.fadeDur) = d ∧
    (musicConditioning 1).filter.fadeStart = 0 := by
  refine ⟨rfl, rfl, rfl, le_max_left 0 _, ?_, by norm_num [musicConditioning]⟩
  show min d (max 0 (d - 2) + 2) = d
  rcases le_total 0 (d - 2) with h1 | h1
  · rw [max_eq_right h1]
    exact min_eq_left (by linarith)
  · rw [max_eq_left h1]
    exact min_eq_left (by linarith)

/-- C4: the music conditioning loops the source (`-stream_loop -1`) rather
than silence-padding, hard-trims to `[0, d)` via `atrim=0:d`, and the
conditioned stream's duration is exactly `d` for every source duration
`s` — shorter or longer than `d`. -/
theorem conditioned_duration_exact (s d : ℚ) :
    (musicConditioning d).streamLoop = true ∧
    (musicConditioning d).filter.trimStart = 0 ∧
    (musicConditioning d).filter.trimEnd = d ∧
    atrimOutputDuration (inputStreamDuration (musicConditioning d).streamLoop s)
      (musicConditioning d).filter.trimEnd = (d : WithTop ℚ) := by
  refine ⟨rfl, rfl, rfl, ?_⟩
  show min (⊤ : WithTop ℚ) (d : WithTop ℚ) = (d : WithTop ℚ)
  exact min_eq_right le_top

/-- C7: the `/process` topology trims the second input's audio (`1:a`) to
exactly 5 seconds with a symmetric 0.5s fade-in at 0 and 0.5s fade-out at
4.5 (ending exactly at the trim end), maps the processed audio alongside
input 0's video, stream-copies the video and re-encodes the audio; the
single-asset `processAudio` variant uses the same 5s/0.5s policy. -/
theorem process_fixed_duration_replace :
    processEndpointFilter.sourceStream = "1:a" ∧
    processEndpointFilter.trimStart = 0 ∧
    processEndpointFilter.trimEnd = 5 ∧
    processEndpointFilter.trimEnd - processEndpointFilter.trimStart = 5 ∧
    processEndpointFilter.fadeInStart = 0 ∧
    processEndpointFilter.fadeInDuration = 1 / 2 ∧
    processEndpointFilter.fadeOutStart = 9 / 2 ∧
    processEndpointFilter.fadeOutDuration = 1 / 2 ∧
    processEndpointFilter.fadeInDuration = processEndpointFilter.fadeOutDuration ∧
    processEndpointFilter.fadeOutStart + processEndpointFilter.fadeOutDuration =
      processEndpointFilter.trimEnd ∧
    processEndpointFilter.outputLabel = "audio_processed" ∧
    processEndpointOutputOptions.contains "-map 0:v" = true ∧
    processEndpointOutputOptions.contains "-map [audio_processed]" = true ∧
    processEndpointOutputOptions.contains "-c:v copy" = true ∧
    processEndpointOutputOptions.contains "-c:a aac" = true ∧
    processAudioConfig.durationSeconds = 5 ∧
    processAudioConfig.fadeInStart = 0 ∧
    processAudioConfig.fadeInDuration = 1 / 2 ∧
    processAudioConfig.fadeOutStart = 9 / 2 ∧
    processAudioConfig.fadeOutStart + processAudioConfig.fadeOutDuration =
      processAudioConfig.durationSeconds := by
  refine ⟨rfl, rfl, rfl, by norm_num [processEndpointFilter], rfl, rfl, rfl, rfl, rfl,
    by norm_num [processEndpointFilter], rfl, by decide, by decide, by decide, by decide,
    rfl, rfl, rfl, rfl, by norm_num [processAudioConfig]⟩

/-- C5 counterexample: the merge invocation of `mergeVideoWithMusic` never
lets input 0's own audio reach the output — there is no filter graph and
no `-map 0:a`; the music (`1:a`) is mapped as the sole audio stream. So
for a target video that has audio, the output audio is not a mix of the
two sources. -/
theorem merge_no_mix_counterexample :
    ¬ MergeMixesExistingAudio ∧
    mapsStream mergeOutputOptions "1:a" = true ∧
    mergeFilterGraph = [] := by
  unfold MergeMixesExistingAudio
  decide

/-- C5 amended: when the target video already has an audio stream, the
merge step replaces it — the conditioned music track is mapped as the sole
output audio stream (`-map 1:a`), the video is stream-copied, and the
output ends at the shorter of the two streams (`-shortest`). -/
theorem merge_replaces_audio :
    mergeUsesExistingAudio = false ∧
    mapsStream mergeOutputOptions "1:a" = true ∧
    mapsStream mergeOutputOptions "0:v" = true ∧
    mergeOutputOptions.contains "-c:v copy" = true ∧
    mergeOutputOptions.contains "-shortest" = true ∧
    mergeFilterGraph = [] := by
  decide

/-- A probed container with an audio stream. -/
def probeMetaWithAudio : FfprobeMetadata :=
  { format := { duration := 10 },
    streams := [{ codec_type := "video" }, { codec_type := "audio" }] }

/-- The same container-level metadata with no audio stream. -/
def probeMetaWithoutAudio : FfprobeMetadata :=
  { format := { duration := 10 }, streams := [{ codec_type := "video" }] }

/-- C8 counterexample: the source prober resolves only
`metadata.format.duration`; it computes no `hasAudio` — its result is
identical on a container with an audio stream and on one without, although
stream enumeration (the spec's definition) distinguishes them. -/
theorem probe_ignores_streams_counterexample :
    probeVideoDuration probeMetaWithAudio = probeVideoDuration probeMetaWithoutAudio ∧
    specHasAudio probeMetaWithAudio = true ∧
    specHasAudio probeMetaWithoutAudio = false := by
  decide

/-- C8 amended: the prober takes the duration from container-level metadata
(`metadata.format.duration`, fractional seconds) and nothing else; its
result is independent of the container's streams, so no `hasAudio` is
computed. -/
theorem probe_duration_only (f : FfprobeFormat) (ss ss' : List FfprobeStream) :
    probeVideoDuration { format := f, streams := ss } = f.duration ∧
    probeVideoDuration { format := f, streams := ss } =
      probeVideoDuration { format := f, streams := ss' } :=
  ⟨rfl, rfl⟩

/-- C10 counterexample: the merge server's `updateSupabaseRecord` returns
`false` on a non-2xx PATCH response but logs no warning at all, refuting
the claim's "returns false (logging a warning)" for that variant. -/
theorem record_patch_merge_no_warning_counterexample :
    (updateSupabaseRecordMerge false).1 = false ∧
    (updateSupabaseRecordMerge false).2 = [] :=
  ⟨rfl, rfl⟩

/-- C10 amended: neither variant of `updateSupabaseRecord` throws on a
non-2xx response — both return `false` on failure and `true` on success
(so a failed status-record patch never aborts the owning job's pipeline);
the lip-sync server's variant additionally logs a warning, the merge
server's variant logs nothing. -/
theorem record_patch_never_throws (ok : Bool) :
    (updateSupabaseRecordLipsync ok).1 = ok ∧
    (updateSupabaseRecordMerge ok).1 = ok ∧
    (updateSupabaseRecordLipsync false).2 = ["Failed to update Supabase record:"] ∧
    (updateSupabaseRecordMerge ok).2 = [] := by
  cases ok <;> exact ⟨rfl, rfl, rfl, rfl⟩

/-- C9: every error raised inside a job's pipeline is caught at the job
boundary and recorded as the terminal `failed` status together with the
error message verbatim (both in the merge server's async handler and in
`processVideoWithDreamFace`'s catch block), and the patch touches only the
owning job's record — any other job's record is unchanged. -/
theorem job_error_boundary (m : String) (store : String → List (String × String))
    (uuid u : String) (h : u ≠ uuid) :
    asyncCreateVideoHandler (Except.error m) =
      [("status", "failed"), ("error_message", m)] ∧
    List.lookup "status" (asyncCreateVideoHandler (Except.error m)) = some "failed" ∧
    List.lookup "error_message" (asyncCreateVideoHandler (Except.error m)) = some m ∧
    List.lookup "status" (dreamFaceCatchUpdate m) = some "failed" ∧
    List.lookup "error_message" (dreamFaceCatchUpdate m) = some m ∧
    applyRecordUpdate store uuid (asyncCreateVideoHandler (Except.error m)) u = store u := by
  refine ⟨rfl, rfl, rfl, rfl, rfl, ?_⟩
  simp [applyRecordUpdate, h]

/-- C9 witness: a concrete failing pipeline with message "boom" under job
"job-a" leaves the sibling job "job-b" untouched. -/
theorem job_error_boundary_witness :
    asyncCreateVideoHandler (Except.error "boom") =
      [("status", "failed"), ("error_message", "boom")] ∧
    List.lookup "status" (asyncCreateVideoHandler (Except.error "boom")) = some "failed" ∧
    List.lookup "error_message" (asyncCreateVideoHandler (Except.error "boom")) =
      some "boom" ∧
    List.lookup "status" (dreamFaceCatchUpdate "boom") = some "failed" ∧
    List.lookup "error_message" (dreamFaceCatchUpdate "boom") = some "boom" ∧
    applyRecordUpdate (fun _ => []) "job-a"
      (asyncCreateVideoHandler (Except.error "boom")) "job-b" =
      (fun _ => ([] : List (String × String))) "job-b" :=
  job_error_boundary "boom" (fun _ => []) "job-a" "job-b" (by decide)

/-- If a JS `||`-chain evaluates to a truthy value, that value is the first
truthy element of the chain. -/
lemma firstTruthy_of_chain_truthy :
    ∀ l : List (Option String), truthy (jsOrChain l) = true →
      firstTruthy l = jsOrChain l := by
  intro l
  induction l with
  | nil => intro h; simp [jsOrChain, truthy] at h
  | cons a rest ih =>
    cases rest with
    | nil =>
      intro h
      simp only [jsOrChain] at h ⊢
      simp [firstTruthy, h]
    | cons b rest2 =>
      intro h
      by_cases ha : truthy a = true
      · simp [firstTruthy, jsOrChain, jsOr, ha]
      · simp only [Bool.not_eq_true] at ha
        simp only [jsOrChain, jsOr, ha] at h ⊢
        simp only [Bool.false_eq_true, if_false]
        simp only [firstTruthy, ha, Bool.false_eq_true, if_false]
        exact ih h
  
/-- If a JS `||`-chain evaluates to a falsy value, no element of the chain
is truthy. -/
lemma firstTruthy_none_of_chain_falsy :
    ∀ l : List (Option String), truthy (jsOrChain l) = false →
      firstTruthy l = none := by
  intro l
  induction l with
  | nil => intro _; rfl
  | cons a rest ih =>
    cases rest with
    | nil =>
      intro h
      simp only [jsOrChain] at h
      simp [firstTruthy, h]
    | cons b rest2 =>
      intro h
      by_cases ha : truthy a = true
      · simp only [jsOrChain, jsOr, ha, if_true] at h
        simp at h
      · simp only [Bool.not_eq_true] at ha
        simp only [jsOrChain, jsOr, ha, Bool.false_eq_true, if_false] at h
        simp only [firstTruthy, ha, Bool.false_eq_true, if_false]
        exact ih h

/-- C6: the submitter's task-id extraction returns exactly the first
present (truthy) alias, in the source's order — top-level `taskId`,
`task_id`, `id`, `requestId`, then the `data` envelope's `taskId`,
`task_id`, `id` — and when no alias yields an id it fails with the
no-task-id error instead of proceeding to polling. -/
theorem submit_returns_first_alias (r : SubmitResponse) :
    callDreamFaceAPI r =
      (match firstTruthy (taskIdAliases r) with
       | some t => Except.ok t
       | none => Except.error "No task ID received from DreamFace API") := by
  have hchain : resolveTaskId r = jsOrChain (taskIdAliases r) := rfl
  by_cases h : truthy (resolveTaskId r) = true
  · have h1 : firstTruthy (taskIdAliases r) = resolveTaskId r := by
      rw [hchain] at h ⊢
      exact firstTruthy_of_chain_truthy _ h
    cases hv : resolveTaskId r with
    | none => rw [hv] at h; simp [truthy] at h
    | some t =>
      rw [hv] at h h1
      have ht : (t == "") = false := by
        simpa [truthy] using h
      rw [h1]
      simp [callDreamFaceAPI, hv, ht]
  · have h0 : truthy (resolveTaskId r) = false := by
      simpa using h
    have h1 : firstTruthy (taskIdAliases r) = none := by
      rw [hchain] at h0
      exact firstTruthy_none_of_chain_falsy _ h0
    rw [h1]
    cases hv : resolveTaskId r with
    | none => simp [callDreamFaceAPI, hv]
    | some t =>
      rw [hv] at h0
      have ht : (t == "") = true := by
        simpa [truthy] using h0
      simp [callDreamFaceAPI, hv, ht]

/-- Inversion for the `try` body: a step returns a URL only from a payload
that has a recognized done status and a truthy resolved result URL. -/
lemma tryBody_done_inv (a : Nat) (r : Resp) (url : String)
    (h : tryBody a r = StepResult.done url) :
    ∃ p, r = Resp.payload p ∧ isCompleted p = true ∧
      truthy (resolveResultUrl p) = true ∧ url = (resolveResultUrl p).getD "" := by
  cases r with
  | transport =>
    simp only [tryBody] at h
    split at h <;> simp_all
  | payload p =>
    simp only [tryBody] at h
    by_cases hc : (isCompleted p && truthy (resolveResultUrl p)) = true
    · rw [if_pos hc] at h
      injection h with h'
      rw [Bool.and_eq_true] at hc
      exact ⟨p, rfl, hc.1, hc.2, h'.symm⟩
    · rw [if_neg hc] at h
      split at h <;> simp_all

/-- Inversion for the loop: a successful poll outcome can only arise from
some response whose payload completes with a truthy result URL. -/
lemma pollAux_success_inv (responses : Nat → Resp) :
    ∀ fuel a url, pollAux responses fuel a = PollOutcome.success url →
      ∃ i q, responses i = Resp.payload q ∧ isCompleted q = true ∧
        truthy (resolveResultUrl q) = true ∧ url = (resolveResultUrl q).getD "" := by
  intro fuel
  induction fuel with
  | zero =>
    intro a url h
    simp [pollAux] at h
  | succ n ih =>
    intro a url h
    simp only [pollAux] at h
    cases htb : tryBody a (responses a) with
    | done u =>
      simp only [htb] at h
      injection h with h'
      obtain ⟨p, hp, h1, h2, h3⟩ := tryBody_done_inv a (responses a) u htb
      exact ⟨a, p, hp, h1, h2, h' ▸ h3⟩
    | raise m =>
      simp only [htb] at h
      split at h
      · exact absurd h (by simp)
      · exact ih (a + 1) url h
    | next =>
      simp only [htb] at h
      exact ih (a + 1) url h

/-- C1: the poller transitions to the completed outcome only when the
payload reports a recognized done status and a truthy result URL (third
conjunct); a step whose payload is completed/success but resolves no
result URL never returns a URL (second conjunct) and the loop simply
proceeds to the next attempt (first conjunct) — even when the payload also
carries a failure status, since the thrown error is caught by the loop's
own catch block. -/
theorem poll_completed_requires_url
    (responses : Nat → Resp) (a fuel : Nat) (p : StatusPayload)
    (hr : responses a = Resp.payload p)
    (hc : isCompleted p = true)
    (hu : truthy (resolveResultUrl p) = false)
    (ha : a + 1 < maxAttempts) :
    pollAux responses (fuel + 1) a = pollAux responses fuel (a + 1) ∧
    (∀ url, tryBody a (responses a) ≠ StepResult.done url) ∧
    (∀ fuel' a' url, pollAux responses fuel' a' = PollOutcome.success url →
      ∃ i q, responses i = Resp.payload q ∧ isCompleted q = true ∧
        truthy (resolveResultUrl q) = true ∧ url = (resolveResultUrl q).getD "") := by
  have hstep : tryBody a (responses a) =
      (if isFailed p then
        StepResult.raise ("DreamFace processing failed: " ++ failureMessage p)
      else StepResult.next) := by
    rw [hr]
    simp [tryBody, hc, hu]
  refine ⟨?_, ?_, fun fuel' a' url h => pollAux_success_inv responses fuel' a' url h⟩
  · simp only [pollAux, hstep]
    by_cases hf : isFailed p = true
    · simp [hf, Nat.not_le.mpr ha]
    · simp only [Bool.not_eq_true] at hf
      simp [hf]
  · intro url hdone
    rw [hstep] at hdone
    split at hdone <;> simp_all

/-- A payload with `status: "completed"` and every other field absent. -/
def payloadCompletedNoUrl : StatusPayload :=
  { status := some "completed", state := none, resultUrl := none, result_url := none,
    videoUrl := none, video_url := none, outputUrl := none, output_url := none,
    error := none, errorMessage := none, message := none }

/-- A provider that answers `{status: "completed"}` with no result URL on
every tick. -/
def respCompletedNoUrl : Nat → Resp := fun _ => Resp.payload payloadCompletedNoUrl

/-- C1 witness: at attempt 0 against the completed-without-URL provider,
the poller does not return a URL and proceeds to attempt 1. -/
theorem poll_completed_requires_url_witness :
    pollAux respCompletedNoUrl 120 0 = pollAux respCompletedNoUrl 119 1 ∧
    (∀ url, tryBody 0 (respCompletedNoUrl 0) ≠ StepResult.done url) ∧
    (∀ fuel' a' url, pollAux respCompletedNoUrl fuel' a' = PollOutcome.success url →
      ∃ i q, respCompletedNoUrl i = Resp.payload q ∧ isCompleted q = true ∧
        truthy (resolveResultUrl q) = true ∧ url = (resolveResultUrl q).getD "") :=
  poll_completed_requires_url respCompletedNoUrl 0 119 payloadCompletedNoUrl rfl
    (by decide) (by decide) (by decide)

/-- With only non-terminal responses, every run of the loop ends in the
thrown timeout. -/
lemma pollAux_timeout_of_nonterminal (responses : Nat → Resp)
    (h : ∀ i, isTerminalResp (responses i) = false) :
    ∀ fuel a, (pollAux responses fuel a).isTimeout = true := by
  intro fuel
  induction fuel with
  | zero => intro a; rfl
  | succ n ih =>
    intro a
    simp only [pollAux]
    cases hr : responses a with
    | transport =>
      simp only [tryBody]
      by_cases h5 : a < 5
      · simp only [h5, if_true]
        exact ih (a + 1)
      · simp only [h5, if_false]
        split
        · rfl
        · exact ih (a + 1)
    | payload p =>
      have hterm := h a
      rw [hr] at hterm
      simp only [isTerminalResp, Bool.or_eq_false_iff] at hterm
      obtain ⟨h1, h2⟩ := hterm
      simp only [tryBody, h1, h2, Bool.false_eq_true, if_false]
      exact ih (a + 1)

/-- The loop inspects at most `fuel` responses, starting at the current
attempt index. -/
lemma pollAux_congr (responses responses' : Nat → Resp) :
    ∀ fuel a, (∀ i, a ≤ i → i < a + fuel → responses i = responses' i) →
      pollAux responses fuel a = pollAux responses' fuel a := by
  intro fuel
  induction fuel with
  | zero => intro a _; rfl
  | succ n ih =>
    intro a h
    have ha : responses a = responses' a := h a (le_refl a) (by omega)
    have hrec := ih (a + 1) (fun i h1 h2 => h i (by omega) (by omega))
    simp only [pollAux, ha]
    cases tryBody a (responses' a) with
    | done url => rfl
    | raise m =>
      by_cases hm : maxAttempts ≤ a + 1
      · simp [hm]
      · simp [hm, hrec]
    | next => exact hrec

/-- C2: against any response sequence containing no terminal payload
(neither completed-with-URL nor failed), the poller ends in the thrown
timeout; moreover the outcome depends only on the first `maxAttempts = 120`
responses, so the poller is never left polling indefinitely. -/
theorem poll_bounded_timeout (responses : Nat → Resp)
    (h : ∀ i, isTerminalResp (responses i) = false) :
    (pollDreamFaceCompletion responses).isTimeout = true ∧
    ∀ responses' : Nat → Resp, (∀ i, i < maxAttempts → responses i = responses' i) →
      pollDreamFaceCompletion responses = pollDreamFaceCompletion responses' := by
  constructor
  · exact pollAux_timeout_of_nonterminal responses h maxAttempts 0
  · intro responses' h'
    exact pollAux_congr responses responses' maxAttempts 0
      (fun i h1 h2 => h' i (by simpa using h2))

/-- A payload with `status: "processing"` and every other field absent:
never terminal. -/
def payloadProcessing : StatusPayload :=
  { status := some "processing", state := none, resultUrl := none, result_url := none,
    videoUrl := none, video_url := none, outputUrl := none, output_url := none,
    error := none, errorMessage := none, message := none }

/-- A provider that answers `{status: "processing"}` on every tick. -/
def respProcessing : Nat → Resp := fun _ => Resp.payload payloadProcessing

/-- C2 witness: the always-processing provider drives the poller to the
thrown timeout, and only its first 120 responses matter. -/
theorem poll_bounded_timeout_witness :
    (pollDreamFaceCompletion respProcessing).isTimeout = true ∧
    ∀ responses' : Nat → Resp,
      (∀ i, i < maxAttempts → respProcessing i = responses' i) →
      pollDreamFaceCompletion respProcessing = pollDreamFaceCompletion responses' :=
  poll_bounded_timeout respProcessing (fun _ => rfl)
